import Mathlib

/-!
Verification of the WhatsApp webhook ingestion engine.

Shallow embedding of the conversation aggregate store (mongodb.js:
saveMessageToConversation, updateMessageStatus, addReactionToMessage,
updateContactProfile), the tenant directory (businessCache.js, the
handler's direct Business.findOne lookup, verifier.js), and the
signature-verification middleware (signatureVerifier.js).

Modelling conventions:
* Mongo documents become Lean structures; collections become lists in
  insertion order, and `findOne` becomes `List.find?` (first match).
* JS Date values become `Nat` milliseconds since the epoch.
* Statuses, directions and event names stay `String`s, as in the source.
* Each `await` of a separate database command is modelled as a separate
  pure state transition; `saveMessageToConversation` is decomposed into
  its read phase (the duplicate `findOne`) and its write phase (the
  `updateOne`), exactly the two commands the source issues.
-/

namespace WhatsAppWebhook

/-! ### Generic list helpers (Mongo / JS array semantics) -/

/-- Replace the element at index `i` by `f` applied to it; out-of-range
indices leave the list unchanged. -/
def modifyAt : List α → Nat → (α → α) → List α
  | [], _, _ => []
  | x :: xs, 0, f => f x :: xs
  | x :: xs, n + 1, f => x :: modifyAt xs n f

/-- JS `Array.prototype.findIndex`: index of the first element satisfying
`p`, or `-1` when there is none. -/
def jsFindIndex : List α → (α → Bool) → Int
  | [], _ => -1
  | x :: xs, p =>
    if p x then 0
    else
      let r := jsFindIndex xs p
      if r = -1 then -1 else r + 1

/-- Mongo `$push` with `$slice: -n`: keep only the last `n` elements. -/
def takeLast (n : Nat) (l : List α) : List α :=
  l.drop (l.length - n)

/-! ### Data model: conversation aggregate -/

/-- One entry of a message's `reactions` array (`{ from, emoji, timestamp }`). -/
structure Reaction where
  from_ : String
  emoji : String
  timestamp : Nat
  deriving DecidableEq, Repr

/-- One entry of `contact.profileHistory`. -/
structure ProfileChange where
  field : String
  oldValue : Option String
  newValue : Option String
  timestamp : Nat
  deriving DecidableEq, Repr

/-- The `contact` sub-document of a conversation. -/
structure Contact where
  phoneNumber : String
  name : String
  profilePhoto : Option String
  about : Option String
  profileHistory : List ProfileChange
  deriving DecidableEq, Repr

/-- An embedded message document.  Content is represented by its `text`
summary (`content.text`), the only content field the verified operations
read; media/location/interactive sub-fields are never consulted by the
aggregate mutations. -/
structure Message where
  _id : Nat
  whatsappMessageId : String
  from_ : String
  to_ : String
  direction : String
  type : String
  contentText : String
  timestamp : Nat
  status : String
  reactions : List Reaction
  deliveredAt : Option Nat
  readAt : Option Nat
  createdAt : Nat
  updatedAt : Nat
  deriving DecidableEq, Repr

/-- The denormalized `lastMessage` projection. -/
structure LastMessage where
  text : String
  type : String
  direction : String
  timestamp : Nat
  status : String
  deriving DecidableEq, Repr

/-- The `conversationWindow` sub-document. -/
structure ConversationWindow where
  isOpen : Bool
  openedAt : Nat
  expiresAt : Nat
  category : String
  deriving DecidableEq, Repr

/-- The `metrics` sub-document (the counters touched by ingestion). -/
structure Metrics where
  totalMessages : Nat
  incomingMessages : Nat
  outgoingMessages : Nat
  conversationsOpened : Nat
  deriving DecidableEq, Repr

/-- A conversation aggregate document. -/
structure Conversation where
  _id : Nat
  contact : Contact
  status : String
  messages : List Message
  lastMessage : LastMessage
  lastMessageAt : Nat
  unreadCount : Nat
  conversationWindow : ConversationWindow
  metrics : Metrics
  isDeleted : Bool
  updatedAt : Nat
  deriving DecidableEq, Repr

/-- The `messageDoc` assembled by `processIncomingMessage` and handed to
`saveMessageToConversation`. -/
structure MessageData where
  whatsappMessageId : String
  from_ : String
  to_ : String
  direction : String
  type : String
  contentText : String
  timestamp : Nat
  status : String
  deriving DecidableEq, Repr

/-- 24 hours in milliseconds (`24 * 60 * 60 * 1000`). -/
def dayMs : Nat := 24 * 60 * 60 * 1000

/-- The duplicate-detection query of `saveMessageToConversation`: does the
conversation already embed a message with this `whatsappMessageId`?
(`findOne({ _id, 'messages.whatsappMessageId': id })`). -/
def hasMessageWithId (c : Conversation) (wid : String) : Bool :=
  c.messages.any (fun m => m.whatsappMessageId == wid)

/-- Number of embedded messages carrying a given `whatsappMessageId`. -/
def countMessagesWithId (c : Conversation) (wid : String) : Nat :=
  c.messages.countP (fun m => m.whatsappMessageId == wid)

/-- `messageData.content?.text || `[type]``: the preview text used for
`lastMessage.text` (JS falsiness makes the empty string fall back). -/
def lastMessageText (md : MessageData) : String :=
  if md.contentText = "" then "[" ++ md.type ++ "]" else md.contentText

/-- Write phase of `saveMessageToConversation`: the single `updateOne`
(`$push` the message, `$set` lastMessage / window / reactivation,
`$inc` the counters).  `freshId` models the `new ObjectId()`, `now` the
`new Date()` values. -/
def saveApply (c : Conversation) (md : MessageData) (freshId now : Nat) : Conversation :=
  let msg : Message :=
    { _id := freshId
      whatsappMessageId := md.whatsappMessageId
      from_ := md.from_
      to_ := md.to_
      direction := md.direction
      type := md.type
      contentText := md.contentText
      timestamp := md.timestamp
      status := md.status
      reactions := []
      deliveredAt := none
      readAt := none
      createdAt := now
      updatedAt := now }
  { c with
    messages := c.messages ++ [msg]
    lastMessage :=
      { text := lastMessageText md
        type := md.type
        direction := "incoming"
        timestamp := md.timestamp
        status := "delivered" }
    lastMessageAt := md.timestamp
    updatedAt := now
    conversationWindow :=
      { isOpen := true
        openedAt := md.timestamp
        expiresAt := md.timestamp + dayMs
        category := "user_initiated" }
    status := if c.status == "archived" || c.status == "closed" then "active" else c.status
    unreadCount := c.unreadCount + 1
    metrics :=
      { c.metrics with
        totalMessages := c.metrics.totalMessages + 1
        incomingMessages := c.metrics.incomingMessages + 1
        conversationsOpened := c.metrics.conversationsOpened + 1 } }

/-- Outcome of `saveMessageToConversation`. -/
inductive SaveResult where
  | duplicate
  | saved (messageId : Nat)
  deriving DecidableEq, Repr

/-- `saveMessageToConversation`: duplicate `findOne` first; on a hit return
`{ duplicate: true }` with no mutation, otherwise perform the write phase. -/
def saveMessageToConversation (c : Conversation) (md : MessageData) (freshId now : Nat) :
    SaveResult × Conversation :=
  if hasMessageWithId c md.whatsappMessageId then
    (SaveResult.duplicate, c)
  else
    (SaveResult.saved freshId, saveApply c md freshId now)

/-- The tail of `processIncomingMessage` after the conversation is located:
call `saveMessageToConversation`; on `duplicate` return early without
notifying, otherwise emit the `new_message` and `notification:new_message`
client notifications.  The third component records the `notifyClients`
event types emitted. -/
def processIncomingMessageSave (c : Conversation) (md : MessageData) (freshId now : Nat) :
    SaveResult × Conversation × List String :=
  match saveMessageToConversation c md freshId now with
  | (SaveResult.duplicate, c') => (SaveResult.duplicate, c', [])
  | (SaveResult.saved mid, c') =>
      (SaveResult.saved mid, c', ["new_message", "notification:new_message"])

/-- The fields of a raw webhook message consulted when the `messageDoc` is
assembled (`extractMessageData`). -/
structure ExtractedMessage where
  from_ : String
  timestampSeconds : Nat
  id : String
  type : String
  deriving DecidableEq, Repr

/-- The `messageDoc` literal of `processIncomingMessage`
(messageProcessor.js): `status` is the literal `'delivered'`;
`new Date(parseInt(timestamp) * 1000)` becomes `timestampSeconds * 1000`.
The already-built `content.text` is passed in. -/
def buildMessageDoc (businessPhoneId : String) (m : ExtractedMessage) (contentText : String) :
    MessageData :=
  { whatsappMessageId := m.id
    from_ := m.from_
    to_ := businessPhoneId
    direction := "incoming"
    type := m.type
    contentText := contentText
    timestamp := m.timestampSeconds * 1000
    status := "delivered" }

/-! ### updateMessageStatus -/

/-- The `$set` applied to the located message by `updateMessageStatus`:
status and `updatedAt` unconditionally, plus `deliveredAt` / `readAt`
for those two statuses. -/
def applyStatusFields (m : Message) (status : String) (ts now : Nat) : Message :=
  { m with
    status := status
    updatedAt := now
    deliveredAt := if status == "delivered" then some ts else m.deliveredAt
    readAt := if status == "read" then some ts else m.readAt }

/-- Mongo positional `$` operator: update the first array element matching
the query. -/
def updateFirstMatching (msgs : List Message) (wid : String) (f : Message → Message) :
    List Message :=
  match msgs with
  | [] => []
  | m :: rest =>
      if m.whatsappMessageId == wid then f m :: rest
      else m :: updateFirstMatching rest wid f

/-- Successful return value of `updateMessageStatus`. -/
structure StatusUpdateInfo where
  conversationId : Nat
  messageId : Nat
  status : String
  deriving DecidableEq, Repr

/-- `updateMessageStatus` (mongodb.js): global `findOne` for the first
conversation embedding the message, then one `updateOne` with the
positional operator.  No comparison against the stored status is made. -/
def updateMessageStatus (store : List Conversation) (wid status : String) (ts now : Nat) :
    Option StatusUpdateInfo × List Conversation :=
  match store with
  | [] => (none, [])
  | c :: rest =>
      if hasMessageWithId c wid then
        let mid := (c.messages.find? (fun m => m.whatsappMessageId == wid)).map Message._id
        (some { conversationId := c._id, messageId := mid.getD 0, status := status },
         { c with
             messages :=
               updateFirstMatching c.messages wid (fun m => applyStatusFields m status ts now) }
           :: rest)
      else
        ((updateMessageStatus rest wid status ts now).1,
         c :: (updateMessageStatus rest wid status ts now).2)

/-- First stored message (first conversation, first embedded entry)
carrying `wid`; used to observe the effect of a status update. -/
def findMessage (store : List Conversation) (wid : String) : Option Message :=
  match store.find? (fun c => hasMessageWithId c wid) with
  | none => none
  | some c => c.messages.find? (fun m => m.whatsappMessageId == wid)

/-! ### addReactionToMessage -/

/-- Outcome of `addReactionToMessage`. -/
inductive ReactionResult where
  | success (messageId : Nat)
  | messageNotFound
  | updateFailed
  deriving DecidableEq, Repr

/-- Predicate of the `findIndex` in `addReactionToMessage`: an existing
reaction from the same address with the same emoji. -/
def samePair (u e : String) (r : Reaction) : Bool :=
  r.from_ == u && r.emoji == e

/-- The `updateOne` issued by `addReactionToMessage`, given the
`findIndex` result computed on the target message: an existing
(reactor, emoji) pair gets its timestamp updated in place; otherwise an
empty emoji pulls every reaction from this reactor; otherwise a new
reaction entry is pushed.  The `arrayFilters` update touches every
embedded message matching the id (in practice one). -/
def applyReactionUpdate (c : Conversation) (wid : String) (rd : Reaction) (now : Nat)
    (existingReactionIndex : Int) : Conversation :=
  if 0 ≤ existingReactionIndex then
    { c with
      updatedAt := now
      messages := c.messages.map (fun m =>
        if m.whatsappMessageId == wid then
          { m with
            reactions := modifyAt m.reactions existingReactionIndex.toNat
              (fun r => { r with timestamp := rd.timestamp }) }
        else m) }
  else if rd.emoji = "" then
    { c with
      updatedAt := now
      messages := c.messages.map (fun m =>
        if m.whatsappMessageId == wid then
          { m with reactions := m.reactions.filter (fun r => !(r.from_ == rd.from_)) }
        else m) }
  else
    { c with
      updatedAt := now
      messages := c.messages.map (fun m =>
        if m.whatsappMessageId == wid then
          { m with reactions := m.reactions ++ [rd] }
        else m) }

/-- `addReactionToMessage` (mongodb.js): locate the target message, compute
`findIndex` of an existing reaction from the same address with the same
emoji on it, and issue the corresponding update.  `modifiedCount > 0` is
modelled as the document having changed. -/
def addReactionToMessage (c : Conversation) (wid : String) (rd : Reaction) (now : Nat) :
    ReactionResult × Conversation :=
  match c.messages.find? (fun m => m.whatsappMessageId == wid) with
  | none => (ReactionResult.messageNotFound, c)
  | some targetMessage =>
      if applyReactionUpdate c wid rd now
          (jsFindIndex targetMessage.reactions (samePair rd.from_ rd.emoji)) = c then
        (ReactionResult.updateFailed,
         applyReactionUpdate c wid rd now
           (jsFindIndex targetMessage.reactions (samePair rd.from_ rd.emoji)))
      else
        (ReactionResult.success targetMessage._id,
         applyReactionUpdate c wid rd now
           (jsFindIndex targetMessage.reactions (samePair rd.from_ rd.emoji)))

/-! ### updateContactProfile -/

/-- Incoming profile data assembled by `processProfileUpdate`
(`name` defaults to the wa_id, photo/about default to `null`). -/
structure ProfileData where
  phoneNumber : String
  name : String
  profilePhoto : Option String
  about : Option String
  updatedAt : Nat
  deriving DecidableEq, Repr

/-- The diff computed by `updateContactProfile`: name and photo are
compared directly; `about` participates only when the incoming value is
truthy (`profileData.about && oldProfile.about !== profileData.about`). -/
def profileChanges (contact : Contact) (pd : ProfileData) : List ProfileChange :=
  (if contact.name ≠ pd.name then
    [{ field := "name", oldValue := some contact.name, newValue := some pd.name,
       timestamp := pd.updatedAt }]
   else []) ++
  (if contact.profilePhoto ≠ pd.profilePhoto then
    [{ field := "profilePhoto", oldValue := contact.profilePhoto, newValue := pd.profilePhoto,
       timestamp := pd.updatedAt }]
   else []) ++
  (if pd.about.isSome ∧ contact.about ≠ pd.about then
    [{ field := "about", oldValue := contact.about, newValue := pd.about,
       timestamp := pd.updatedAt }]
   else [])

/-- The `updateOne` issued by `updateContactProfile` when the diff is
non-empty: `$set`s `contact.name`, `contact.profilePhoto`, `updatedAt`
(and `contact.about` only when the incoming about is truthy) and
`$push`es the changes onto `contact.profileHistory` with `$slice: -20`. -/
def profileSetDoc (c : Conversation) (pd : ProfileData) : Conversation :=
  { c with
    updatedAt := pd.updatedAt
    contact :=
      { c.contact with
        name := pd.name
        profilePhoto := pd.profilePhoto
        about := if pd.about.isSome then pd.about else c.contact.about
        profileHistory :=
          takeLast 20 (c.contact.profileHistory ++ profileChanges c.contact pd) } }

/-- The found-conversation body of `updateContactProfile`: empty diff is a
valid no-op; otherwise issue the `$set`/`$push` update.  Returns the
change list the caller receives (empty when `modifiedCount` is zero,
modelled as the document not changing). -/
def applyProfileUpdateConv (c : Conversation) (pd : ProfileData) :
    List ProfileChange × Conversation :=
  if profileChanges c.contact pd = [] then ([], c)
  else if profileSetDoc c pd = c then ([], profileSetDoc c pd)
  else (profileChanges c.contact pd, profileSetDoc c pd)

/-- Outcome of `updateContactProfile`. -/
inductive ProfileUpdateResult where
  | notFound
  | success (conversationId : Nat) (changes : List ProfileChange)
  deriving DecidableEq, Repr

/-- `updateContactProfile` (mongodb.js): find the first non-deleted
conversation for the phone number and apply the profile diff to it. -/
def updateContactProfile (store : List Conversation) (pd : ProfileData) :
    ProfileUpdateResult × List Conversation :=
  match store with
  | [] => (ProfileUpdateResult.notFound, [])
  | c :: rest =>
      if c.contact.phoneNumber == pd.phoneNumber && !c.isDeleted then
        (ProfileUpdateResult.success c._id (applyProfileUpdateConv c pd).1,
         (applyProfileUpdateConv c pd).2 :: rest)
      else
        ((updateContactProfile rest pd).1, c :: (updateContactProfile rest pd).2)

/-! ### Tenant directory: Business model, cache, lookups -/

/-- The `whatsappConfig` sub-document of a Business. -/
structure WhatsappConfig where
  phoneNumberId : String
  wabaId : String
  verifyToken : String
  appSecret : Option String
  deriving DecidableEq, Repr

/-- A tenant (`Business` model). -/
structure Business where
  _id : Nat
  name : String
  owner : Nat
  whatsappConfig : WhatsappConfig
  status : String
  isDeleted : Bool
  deriving DecidableEq, Repr

/-- The webhook handler's tenant lookup (handler.js):
`Business.findOne({ 'whatsappConfig.wabaId': entry.id })` — note the
absence of any status filter. -/
def findBusinessByWabaId (businesses : List Business) (wabaId : String) : Option Business :=
  businesses.find? (fun b => b.whatsappConfig.wabaId == wabaId)

/-- Database query behind `businessCache.getByPhoneNumberId`
(filters `status: 'active'`). -/
def dbQueryByPhoneNumberId (businesses : List Business) (pid : String) : Option Business :=
  businesses.find? (fun b => b.whatsappConfig.phoneNumberId == pid && b.status == "active")

/-- Database query behind `businessCache.getByVerifyToken`
(filters `status: 'active'`). -/
def dbQueryByVerifyToken (businesses : List Business) (tok : String) : Option Business :=
  businesses.find? (fun b => b.whatsappConfig.verifyToken == tok && b.status == "active")

/-- Database query behind `businessCache.getByWabaId`
(filters `status: 'active'`). -/
def dbQueryByWabaId (businesses : List Business) (wid : String) : Option Business :=
  businesses.find? (fun b => b.whatsappConfig.wabaId == wid && b.status == "active")

/-- The GET-verification lookup (verifier.js): active, non-deleted business
holding this verify token. -/
def verifierFindBusiness (businesses : List Business) (tok : String) : Option Business :=
  businesses.find? (fun b =>
    b.whatsappConfig.verifyToken == tok && b.status == "active" && !b.isDeleted)

/-- One entry of the in-process business cache (`{ business, timestamp }`). -/
structure CacheEntry where
  business : Business
  timestamp : Nat
  deriving DecidableEq, Repr

/-- The cache `Map`, as an association list in insertion order. -/
abbrev BusinessCacheState : Type := List (String × CacheEntry)

/-- `this.CACHE_TTL = 5 * 60 * 1000`. -/
def CACHE_TTL : Nat := 5 * 60 * 1000

/-- JS `Map.prototype.set`: replace an existing key in place, else append. -/
def mapSet (cache : BusinessCacheState) (k : String) (v : CacheEntry) : BusinessCacheState :=
  if cache.any (fun p => p.1 == k) then
    cache.map (fun p => if p.1 == k then (k, v) else p)
  else cache ++ [(k, v)]

/-- Shared body of the three `BusinessCache` getters: serve a fresh cache
hit, otherwise fall through to the database query and cache any hit. -/
def businessCacheGet (cache : BusinessCacheState) (now : Nat) (cacheKey : String)
    (dbResult : Option Business) : Option Business × BusinessCacheState :=
  match cache.find? (fun p => p.1 == cacheKey) with
  | some entry =>
      if now - entry.2.timestamp < CACHE_TTL then (some entry.2.business, cache)
      else
        match dbResult with
        | some b => (some b, mapSet cache cacheKey { business := b, timestamp := now })
        | none => (none, cache)
  | none =>
      match dbResult with
      | some b => (some b, mapSet cache cacheKey { business := b, timestamp := now })
      | none => (none, cache)

/-- `businessCache.getByPhoneNumberId` with its `phone:` key prefix. -/
def getByPhoneNumberId (cache : BusinessCacheState) (db : List Business) (pid : String)
    (now : Nat) : Option Business × BusinessCacheState :=
  businessCacheGet cache now ("phone:" ++ pid) (dbQueryByPhoneNumberId db pid)

/-- `businessCache.getByVerifyToken` with its `token:` key prefix. -/
def getByVerifyToken (cache : BusinessCacheState) (db : List Business) (tok : String)
    (now : Nat) : Option Business × BusinessCacheState :=
  businessCacheGet cache now ("token:" ++ tok) (dbQueryByVerifyToken db tok)

/-- `businessCache.getByWabaId` with its `waba:` key prefix. -/
def getByWabaId (cache : BusinessCacheState) (db : List Business) (wid : String)
    (now : Nat) : Option Business × BusinessCacheState :=
  businessCacheGet cache now ("waba:" ++ wid) (dbQueryByWabaId db wid)

/-! ### JSON values and JSON.stringify -/

/-- Parsed JSON values (`req.body` after `express.json()`). -/
inductive Json where
  | null
  | bool (b : Bool)
  | num (n : Int)
  | str (s : String)
  | arr (elems : List Json)
  | obj (fields : List (String × Json))
  deriving Repr

/-- Character-list escaping of `JSON.stringify` for the characters that
occur in this development (quote and backslash). -/
def jsonEscapeList : List Char → List Char
  | [] => []
  | c :: cs =>
      (if c = '"' then ['\\', '"']
       else if c = '\\' then ['\\', '\\']
       else [c]) ++ jsonEscapeList cs

/-- String escaping of `JSON.stringify`. -/
def jsonEscape (s : String) : String :=
  String.mk (jsonEscapeList s.data)

mutual

/-- `JSON.stringify` (no spacing), the value the middleware feeds to the
HMAC in place of the raw request bytes. -/
def stringify : Json → String
  | Json.null => "null"
  | Json.bool true => "true"
  | Json.bool false => "false"
  | Json.num n => toString n
  | Json.str s => "\"" ++ jsonEscape s ++ "\""
  | Json.arr xs => "[" ++ stringifyArr xs ++ "]"
  | Json.obj fs => "\x7b" ++ stringifyObj fs ++ "\x7d"

/-- Comma-joined serialization of an array's elements. -/
def stringifyArr : List Json → String
  | [] => ""
  | [x] => stringify x
  | x :: y :: xs => stringify x ++ "," ++ stringifyArr (y :: xs)

/-- Comma-joined serialization of an object's fields. -/
def stringifyObj : List (String × Json) → String
  | [] => ""
  | [(k, v)] => "\"" ++ jsonEscape k ++ "\":" ++ stringify v
  | (k, v) :: f :: fs =>
      "\"" ++ jsonEscape k ++ "\":" ++ stringify v ++ "," ++ stringifyObj (f :: fs)

end

/-- Field access `j[k]` on an object. -/
def Json.getField : Json → String → Option Json
  | Json.obj fs, k => (fs.find? (fun p => p.1 == k)).map (fun p => p.2)
  | _, _ => none

/-- Index access `j[i]` on an array. -/
def Json.getIndex : Json → Nat → Option Json
  | Json.arr xs, i => xs.get? i
  | _, _ => none

/-- Extract a string value. -/
def Json.asString : Json → Option String
  | Json.str s => some s
  | _ => none

/-- `req.body?.entry?.[0]?.changes?.[0]?.value?.metadata?.phone_number_id`
(signatureVerifier.js). -/
def extractPhoneNumberId (body : Json) : Option String :=
  body.getField "entry" |>.bind (fun j => j.getIndex 0)
    |>.bind (fun j => j.getField "changes") |>.bind (fun j => j.getIndex 0)
    |>.bind (fun j => j.getField "value") |>.bind (fun j => j.getField "metadata")
    |>.bind (fun j => j.getField "phone_number_id") |>.bind Json.asString

/-! ### Signature-verification middleware and webhook boundary -/

/-- An inbound HTTP request as the middleware sees it: the raw bytes the
platform signed, and the parsed body express hands to the handlers. -/
structure WebhookRequest where
  method : String
  signatureHeader : Option String
  rawBody : String
  body : Json

/-- What the middleware does with the request: pass it on (optionally with
the resolved business attached), or answer with an HTTP status itself. -/
inductive MiddlewareOutcome where
  | next (business : Option Business)
  | respond (status : Nat)
  deriving DecidableEq, Repr

/-- The exact string `verifySignatureMiddleware` feeds to
`crypto.createHmac('sha256', secret).update(...)`:
`JSON.stringify(req.body)`, a re-serialization of the parsed body. -/
def middlewareHmacMessage (req : WebhookRequest) : String :=
  stringify req.body

/-- `verifySignatureMiddleware` (signatureVerifier.js), parameterized by
the HMAC-SHA256 hex function.  Missing signature or missing app secret
fall through (`next()` without attaching the business); a malformed
payload answers 400, an unresolved business 404; `timingSafeEqual` throws
on buffers of different byte length, which the surrounding catch turns
into 500; a same-length mismatch answers 401. -/
def verifySignatureMiddleware (hmacHex : String → String → String)
    (cache : BusinessCacheState) (db : List Business) (now : Nat)
    (req : WebhookRequest) : MiddlewareOutcome × BusinessCacheState :=
  if req.method ≠ "POST" then (MiddlewareOutcome.next none, cache)
  else
    match req.signatureHeader with
    | none => (MiddlewareOutcome.next none, cache)
    | some signature =>
        match extractPhoneNumberId req.body with
        | none => (MiddlewareOutcome.respond 400, cache)
        | some pid =>
            if pid = "" then (MiddlewareOutcome.respond 400, cache)
            else
              match getByPhoneNumberId cache db pid now with
              | (none, cache') => (MiddlewareOutcome.respond 404, cache')
              | (some business, cache') =>
                  match business.whatsappConfig.appSecret with
                  | none => (MiddlewareOutcome.next none, cache')
                  | some appSecret =>
                      if appSecret = "" then (MiddlewareOutcome.next none, cache')
                      else
                        if signature.utf8ByteSize
                            = ("sha256=" ++ hmacHex appSecret (middlewareHmacMessage req)).utf8ByteSize then
                          if signature = "sha256=" ++ hmacHex appSecret (middlewareHmacMessage req) then
                            (MiddlewareOutcome.next (some business), cache')
                          else (MiddlewareOutcome.respond 401, cache')
                        else (MiddlewareOutcome.respond 500, cache')

/-- HTTP status the platform observes on `POST /webhook`: the middleware's
own response, or 200 — `handleWebhook` answers `EVENT_RECEIVED` with 200
before any processing, whatever happens afterwards. -/
def postWebhookStatus (hmacHex : String → String → String)
    (cache : BusinessCacheState) (db : List Business) (now : Nat)
    (req : WebhookRequest) : Nat :=
  match verifySignatureMiddleware hmacHex cache db now req with
  | (MiddlewareOutcome.respond s, _) => s
  | (MiddlewareOutcome.next _, _) => 200

/-- Whether the request reaches `handleWebhook` at all — only then can any
of its events be dispatched to the aggregate store. -/
def webhookRequestProcessed (hmacHex : String → String → String)
    (cache : BusinessCacheState) (db : List Business) (now : Nat)
    (req : WebhookRequest) : Bool :=
  match verifySignatureMiddleware hmacHex cache db now req with
  | (MiddlewareOutcome.respond _, _) => false
  | (MiddlewareOutcome.next _, _) => true

/-- The GET verification query parameters. -/
structure VerifyQuery where
  mode : Option String
  verifyToken : Option String
  challenge : Option String

/-- JS truthiness of an optional string parameter. -/
def truthyParam : Option String → Option String
  | none => none
  | some s => if s = "" then none else some s

/-- `verifyWebhook` (verifier.js): 400 on missing mode/token, 403 on a
non-subscribe mode or unknown token, otherwise echo the challenge with
200. -/
def verifyWebhook (db : List Business) (q : VerifyQuery) : Nat × Option String :=
  match truthyParam q.mode, truthyParam q.verifyToken with
  | some mode, some token =>
      if mode ≠ "subscribe" then (403, none)
      else
        match verifierFindBusiness db token with
        | some _ => (200, q.challenge)
        | none => (403, none)
  | _, _ => (400, none)

/-! ### Concurrency model for the duplicate check -/

/-- Two concurrent `saveMessageToConversation` calls for the same message,
interleaved check/check/write/write: each call is the same two database
commands as the sequential `saveMessageToConversation` (the duplicate
`findOne`, then the unconditional `updateOne` filtered only by `_id`),
but the second call's read happens before the first call's write. -/
def concurrentDuplicateSave (c : Conversation) (md : MessageData)
    (fid1 now1 fid2 now2 : Nat) : (SaveResult × SaveResult) × Conversation :=
  let dupA := hasMessageWithId c md.whatsappMessageId
  let dupB := hasMessageWithId c md.whatsappMessageId
  let cA := if dupA then c else saveApply c md fid1 now1
  let cB := if dupB then cA else saveApply cA md fid2 now2
  ((if dupA then SaveResult.duplicate else SaveResult.saved fid1,
    if dupB then SaveResult.duplicate else SaveResult.saved fid2), cB)

/-! ### Concrete fixtures used to instantiate the theorems -/

/-- A contact as created by `findOrCreateConversation`. -/
def baseContact : Contact :=
  { phoneNumber := "915551230000", name := "A", profilePhoto := none,
    about := none, profileHistory := [] }

/-- A freshly created, empty conversation. -/
def baseConv : Conversation :=
  { _id := 1
    contact := baseContact
    status := "active"
    messages := []
    lastMessage := { text := "x", type := "text", direction := "incoming",
                     timestamp := 0, status := "delivered" }
    lastMessageAt := 0
    unreadCount := 0
    conversationWindow := { isOpen := false, openedAt := 0, expiresAt := 0,
                            category := "user_initiated" }
    metrics := { totalMessages := 0, incomingMessages := 0, outgoingMessages := 0,
                 conversationsOpened := 0 }
    isDeleted := false
    updatedAt := 0 }

/-- A concrete inbound text message document. -/
def mdHi : MessageData :=
  { whatsappMessageId := "m1", from_ := "915551230000", to_ := "897",
    direction := "incoming", type := "text", contentText := "Hi",
    timestamp := 1000, status := "delivered" }

/-- A stored copy of `mdHi` (message id "m1") with a given status. -/
def storedM1 (status : String) : Message :=
  { _id := 5, whatsappMessageId := "m1", from_ := "915551230000", to_ := "897",
    direction := "incoming", type := "text", contentText := "Hi",
    timestamp := 1000, status := status, reactions := [],
    deliveredAt := none, readAt := none, createdAt := 1100, updatedAt := 1100 }

/-- An active tenant with all three lookup keys and a configured secret. -/
def activeBusiness : Business :=
  { _id := 10, name := "Acme", owner := 3,
    whatsappConfig := { phoneNumberId := "P1", wabaId := "W1", verifyToken := "V1",
                        appSecret := some "sec" },
    status := "active", isDeleted := false }

/-- The same tenant, suspended. -/
def suspendedBusiness : Business :=
  { activeBusiness with status := "suspended" }

/-- A webhook body whose first change carries `metadata.phone_number_id = "P1"`. -/
def bodyWithPid (pid : String) : Json :=
  Json.obj [("object", Json.str "whatsapp_business_account"),
    ("entry", Json.arr [Json.obj [("id", Json.str "W1"),
      ("changes", Json.arr [Json.obj [("field", Json.str "messages"),
        ("value", Json.obj [("metadata",
          Json.obj [("phone_number_id", Json.str pid)])])]])]])]

/-! ## Shared lemmas -/

theorem hasMessageWithId_saveApply (c : Conversation) (md : MessageData) (fid now : Nat) :
    hasMessageWithId (saveApply c md fid now) md.whatsappMessageId = true := by
  simp [hasMessageWithId, saveApply]

theorem countMessagesWithId_eq_zero (c : Conversation) (wid : String)
    (h : hasMessageWithId c wid = false) : countMessagesWithId c wid = 0 := by
  simp only [hasMessageWithId, List.any_eq_false] at h
  simp only [countMessagesWithId, List.countP_eq_zero]
  intro m hm
  exact h m hm

theorem countMessagesWithId_saveApply (c : Conversation) (md : MessageData) (fid now : Nat) :
    countMessagesWithId (saveApply c md fid now) md.whatsappMessageId
      = countMessagesWithId c md.whatsappMessageId + 1 := by
  simp [countMessagesWithId, saveApply, List.countP_append, List.countP_cons]

/-! ## C3: duplicate detection makes inbound ingestion idempotent -/

/-- C3: if a message with the same external id already exists,
`saveMessageToConversation` returns `Duplicate` and mutates nothing, and
the caller emits no notification; submitting the same inbound message
twice stores it once and increments the counters once. -/
theorem saveMessage_duplicate_idempotent (c : Conversation) (md : MessageData)
    (f1 t1 f2 t2 : Nat) (h : hasMessageWithId c md.whatsappMessageId = false) :
    (∀ c' : Conversation, ∀ f t : Nat, hasMessageWithId c' md.whatsappMessageId = true →
      processIncomingMessageSave c' md f t = (SaveResult.duplicate, c', [])) ∧
    processIncomingMessageSave c md f1 t1
      = (SaveResult.saved f1, saveApply c md f1 t1,
         ["new_message", "notification:new_message"]) ∧
    processIncomingMessageSave (saveApply c md f1 t1) md f2 t2
      = (SaveResult.duplicate, saveApply c md f1 t1, []) ∧
    countMessagesWithId (saveApply c md f1 t1) md.whatsappMessageId = 1 ∧
    (saveApply c md f1 t1).metrics.incomingMessages = c.metrics.incomingMessages + 1 ∧
    (saveApply c md f1 t1).metrics.totalMessages = c.metrics.totalMessages + 1 := by
  refine ⟨?_, ?_, ?_, ?_, ?_, ?_⟩
  · intro c' f t h'
    simp [processIncomingMessageSave, saveMessageToConversation, h']
  · simp [processIncomingMessageSave, saveMessageToConversation, h]
  · simp [processIncomingMessageSave, saveMessageToConversation,
      hasMessageWithId_saveApply c md f1 t1]
  · rw [countMessagesWithId_saveApply, countMessagesWithId_eq_zero c _ h]
  · simp [saveApply]
  · simp [saveApply]

/-- C3 witness: concrete double submission of the same message. -/
theorem saveMessage_duplicate_idempotent_witness :
    processIncomingMessageSave (saveApply baseConv mdHi 7 2000) mdHi 8 3000
      = (SaveResult.duplicate, saveApply baseConv mdHi 7 2000, []) ∧
    countMessagesWithId (saveApply baseConv mdHi 7 2000) "m1" = 1 :=
  let thm := saveMessage_duplicate_idempotent baseConv mdHi 7 2000 8 3000 (by decide)
  ⟨thm.2.2.1, thm.2.2.2.1⟩

/-! ## C4: inbound messages refresh the messaging window and reactivate -/

/-- C4: a non-duplicate inbound message at time T opens the window with
openedAt = T and expiresAt = T + 24h regardless of the prior window
state, and reactivates an archived or closed conversation. -/
theorem saveMessage_window_refresh (c : Conversation) (md : MessageData) (fid now : Nat)
    (h : hasMessageWithId c md.whatsappMessageId = false) :
    ((saveMessageToConversation c md fid now).2.conversationWindow.isOpen = true) ∧
    ((saveMessageToConversation c md fid now).2.conversationWindow.openedAt = md.timestamp) ∧
    ((saveMessageToConversation c md fid now).2.conversationWindow.expiresAt
       = md.timestamp + dayMs) ∧
    ((saveMessageToConversation c md fid now).2.conversationWindow.category
       = "user_initiated") ∧
    ((c.status = "archived" ∨ c.status = "closed") →
       (saveMessageToConversation c md fid now).2.status = "active") := by
  refine ⟨?_, ?_, ?_, ?_, ?_⟩ <;>
    simp only [saveMessageToConversation, h, Bool.false_eq_true, if_false, saveApply]
  intro hcase
  rcases hcase with hs | hs <;> simp [hs]

/-- C4 witness: a closed conversation with a stale window is reopened with
the fresh expiry. -/
theorem saveMessage_window_refresh_witness :
    (saveMessageToConversation { baseConv with status := "closed" } mdHi 7 5000).2.status
      = "active" ∧
    (saveMessageToConversation { baseConv with status := "closed" } mdHi
      7 5000).2.conversationWindow.expiresAt = 1000 + dayMs := by
  have h := saveMessage_window_refresh { baseConv with status := "closed" } mdHi 7 5000
    (by decide)
  exact ⟨h.2.2.2.2 (Or.inr rfl), h.2.2.1⟩

/-! ## C10: inbound messages are stored with initial status delivered -/

/-- C10: the `messageDoc` built for every inbound message carries the
literal initial status `'delivered'`, and a non-duplicate save stores the
message with that status and denormalizes `lastMessage.status` to
`'delivered'` as well. -/
theorem inbound_message_initial_status_delivered (bpid : String) (em : ExtractedMessage)
    (ctext : String) (c : Conversation) (fid now : Nat)
    (h : hasMessageWithId c em.id = false) :
    (buildMessageDoc bpid em ctext).status = "delivered" ∧
    (saveMessageToConversation c (buildMessageDoc bpid em ctext) fid now).2.lastMessage.status
      = "delivered" ∧
    (∃ m : Message,
      (saveMessageToConversation c (buildMessageDoc bpid em ctext) fid now).2.messages.getLast?
        = some m ∧ m.whatsappMessageId = em.id ∧ m.status = "delivered") := by
  have h' : hasMessageWithId c (buildMessageDoc bpid em ctext).whatsappMessageId = false := h
  refine ⟨rfl, ?_, ?_⟩
  · simp [saveMessageToConversation, h', saveApply]
  · simp only [saveMessageToConversation, h', Bool.false_eq_true, if_false, saveApply,
      List.getLast?_concat]
    exact ⟨_, rfl, rfl, rfl⟩

/-- C10 witness: concrete inbound image message stored as delivered. -/
theorem inbound_message_initial_status_delivered_witness :
    (buildMessageDoc "897" { from_ := "9155", timestampSeconds := 3, id := "m9",
                             type := "image" } "caption").status = "delivered" ∧
    (saveMessageToConversation baseConv
      (buildMessageDoc "897" { from_ := "9155", timestampSeconds := 3, id := "m9",
                               type := "image" } "caption") 9 5000).2.lastMessage.status
      = "delivered" :=
  let thm := inbound_message_initial_status_delivered "897"
    { from_ := "9155", timestampSeconds := 3, id := "m9", type := "image" } "caption"
    baseConv 9 5000 (by decide)
  ⟨thm.1, thm.2.1⟩

/-! ## C1: status updates and the (missing) regression guard -/

theorem applyStatusFields_id (m : Message) (s : String) (ts now : Nat) :
    (applyStatusFields m s ts now).whatsappMessageId = m.whatsappMessageId := rfl

theorem find?_cons_true {α} (p : α → Bool) (a : α) (l : List α) (h : p a = true) :
    (a :: l).find? p = some a := by
  simp [List.find?_cons, h]

theorem find?_cons_false {α} (p : α → Bool) (a : α) (l : List α) (h : p a = false) :
    (a :: l).find? p = l.find? p := by
  simp [List.find?_cons, h]

theorem find?_updateFirstMatching (msgs : List Message) (wid : String)
    (f : Message → Message) (hf : ∀ m, (f m).whatsappMessageId = m.whatsappMessageId)
    (m : Message) (h : msgs.find? (fun x => x.whatsappMessageId == wid) = some m) :
    (updateFirstMatching msgs wid f).find? (fun x => x.whatsappMessageId == wid)
      = some (f m) := by
  induction msgs with
  | nil => simp at h
  | cons x xs ih =>
    by_cases hx : (x.whatsappMessageId == wid) = true
    · rw [find?_cons_true _ x xs hx] at h
      obtain rfl := Option.some.inj h
      simp only [updateFirstMatching, hx, if_true]
      have hfx : ((f x).whatsappMessageId == wid) = true := by rw [hf x]; exact hx
      exact find?_cons_true _ (f x) xs hfx
    · have hx' : (x.whatsappMessageId == wid) = false := by simpa using hx
      rw [find?_cons_false _ x xs hx'] at h
      simp only [updateFirstMatching, hx', Bool.false_eq_true, if_false]
      rw [find?_cons_false _ x _ hx']
      exact ih h

theorem any_of_find?_eq_some {α} (p : α → Bool) (l : List α) (a : α)
    (h : l.find? p = some a) : l.any p = true := by
  induction l with
  | nil => simp at h
  | cons x xs ih =>
    by_cases hx : p x = true
    · simp [List.any_cons, hx]
    · have hx' : p x = false := by simpa using hx
      rw [find?_cons_false p x xs hx'] at h
      simp [List.any_cons, ih h]

theorem hasMessageWithId_of_find? (c : Conversation) (wid : String) (m : Message)
    (h : c.messages.find? (fun x => x.whatsappMessageId == wid) = some m) :
    hasMessageWithId c wid = true := by
  simp only [hasMessageWithId]
  exact any_of_find?_eq_some _ _ _ h

theorem findMessage_cons_pos (c : Conversation) (rest : List Conversation) (wid : String)
    (h : hasMessageWithId c wid = true) :
    findMessage (c :: rest) wid = c.messages.find? (fun m => m.whatsappMessageId == wid) := by
  simp only [findMessage, find?_cons_true (fun c => hasMessageWithId c wid) c rest h]

theorem findMessage_cons_neg (c : Conversation) (rest : List Conversation) (wid : String)
    (h : hasMessageWithId c wid = false) :
    findMessage (c :: rest) wid = findMessage rest wid := by
  simp only [findMessage, find?_cons_false (fun c => hasMessageWithId c wid) c rest h]

/-- C1 amended helper: the status update rewrites the located message's
status unconditionally. -/
theorem updateMessageStatus_found (store : List Conversation) (wid s : String)
    (ts now : Nat) (m : Message) (h : findMessage store wid = some m) :
    findMessage (updateMessageStatus store wid s ts now).2 wid
      = some (applyStatusFields m s ts now) := by
  induction store with
  | nil => simp [findMessage] at h
  | cons c rest ih =>
    by_cases hc : hasMessageWithId c wid
    · rw [findMessage_cons_pos c rest wid hc] at h
      have hfind := find?_updateFirstMatching c.messages wid
        (fun x => applyStatusFields x s ts now) (fun x => rfl) m h
      simp only [updateMessageStatus, hc, if_true]
      rw [findMessage_cons_pos _ rest wid (hasMessageWithId_of_find? _ wid _ hfind)]
      exact hfind
    · have hc' : hasMessageWithId c wid = false := by simpa using hc
      rw [findMessage_cons_neg c rest wid hc'] at h
      simp only [updateMessageStatus, hc', Bool.false_eq_true, if_false]
      rw [findMessage_cons_neg c _ wid hc']
      exact ih h

/-- C1 counterexample: a message already marked `read` is regressed to
`delivered` by a later `delivered` status event, while the claim requires
the status to stay `read`. -/
theorem updateMessageStatus_regression_cex :
    (findMessage [{ baseConv with messages := [storedM1 "read"] }] "m1").map Message.status
      = some "read" ∧
    (findMessage (updateMessageStatus [{ baseConv with messages := [storedM1 "read"] }]
        "m1" "delivered" 7000 8000).2 "m1").map Message.status = some "delivered" ∧
    ("delivered" : String) ≠ "read" := by
  refine ⟨by decide, by decide, by decide⟩

/-- C1 amended: `updateMessageStatus` applies the incoming status
unconditionally to the located message — no comparison with the stored
status is made.  `read` after `delivered` therefore advances, but
`delivered` (or `sent`) after `read` equally overwrites the stored
`read`. -/
theorem updateMessageStatus_unconditional (store : List Conversation) (wid s : String)
    (ts now : Nat) (m : Message) (h : findMessage store wid = some m) :
    (findMessage (updateMessageStatus store wid s ts now).2 wid).map Message.status
      = some s := by
  rw [updateMessageStatus_found store wid s ts now m h]
  rfl

/-- C1 witness: `read` arriving after `delivered` advances the stored
status to `read`. -/
theorem updateMessageStatus_unconditional_witness :
    (findMessage (updateMessageStatus
        [{ baseConv with messages := [storedM1 "delivered"] }]
        "m1" "read" 7000 8000).2 "m1").map Message.status = some "read" :=
  updateMessageStatus_unconditional _ "m1" "read" 7000 8000 (storedM1 "delivered")
    (by decide)

/-! ## C5: tenant resolution and the status filter -/

theorem find?_pred_true {α} (p : α → Bool) (l : List α) (a : α)
    (h : l.find? p = some a) : p a = true := by
  induction l with
  | nil => simp at h
  | cons x xs ih =>
    by_cases hx : p x = true
    · rw [find?_cons_true p x xs hx] at h
      obtain rfl := Option.some.inj h
      exact hx
    · have hx' : p x = false := by simpa using hx
      rw [find?_cons_false p x xs hx'] at h
      exact ih h

theorem mem_mapSet (cache : BusinessCacheState) (k : String) (v : CacheEntry)
    (p : String × CacheEntry) (hp : p ∈ mapSet cache k v) : p = (k, v) ∨ p ∈ cache := by
  unfold mapSet at hp
  by_cases h : cache.any (fun q => q.1 == k) = true
  · simp only [h, if_true, List.mem_map] at hp
    obtain ⟨q, hq, hqe⟩ := hp
    by_cases hqk : (q.1 == k) = true
    · rw [if_pos hqk] at hqe
      exact Or.inl hqe.symm
    · rw [if_neg hqk] at hqe
      exact Or.inr (hqe ▸ hq)
  · simp only [h, Bool.false_eq_true, if_false, List.mem_append, List.mem_singleton] at hp
    exact hp.symm

theorem businessCacheGet_active (cache : BusinessCacheState) (now : Nat) (k : String)
    (dbResult : Option Business)
    (hc : ∀ p ∈ cache, p.2.business.status = "active")
    (hd : ∀ b, dbResult = some b → b.status = "active") :
    (∀ b, (businessCacheGet cache now k dbResult).1 = some b → b.status = "active") ∧
    (∀ p ∈ (businessCacheGet cache now k dbResult).2, p.2.business.status = "active") := by
  unfold businessCacheGet
  cases hfind : cache.find? (fun p => p.1 == k) with
  | none =>
    cases dbResult with
    | none => exact ⟨fun b hb => by simp at hb, hc⟩
    | some b =>
      refine ⟨fun b' hb' => ?_, fun p hp => ?_⟩
      · obtain rfl := Option.some.inj hb'
        exact hd _ rfl
      · rcases mem_mapSet cache k _ p hp with rfl | hpc
        · exact hd b rfl
        · exact hc p hpc
  | some entry =>
    have hact : entry.2.business.status = "active" :=
      hc entry (List.mem_of_find?_eq_some hfind)
    by_cases httl : now - entry.2.timestamp < CACHE_TTL
    · simp only [httl, if_true]
      exact ⟨fun b hb => (Option.some.inj hb) ▸ hact, hc⟩
    · simp only [httl, if_false]
      cases dbResult with
      | none => exact ⟨fun b hb => by simp at hb, hc⟩
      | some b =>
        refine ⟨fun b' hb' => ?_, fun p hp => ?_⟩
        · obtain rfl := Option.some.inj hb'
          exact hd _ rfl
        · rcases mem_mapSet cache k _ p hp with rfl | hpc
          · exact hd b rfl
          · exact hc p hpc

theorem dbQueryByPhoneNumberId_active (db : List Business) (pid : String) (b : Business)
    (h : dbQueryByPhoneNumberId db pid = some b) : b.status = "active" := by
  have hp := find?_pred_true _ _ _ h
  simp only [Bool.and_eq_true, beq_iff_eq] at hp
  exact hp.2

theorem dbQueryByVerifyToken_active (db : List Business) (tok : String) (b : Business)
    (h : dbQueryByVerifyToken db tok = some b) : b.status = "active" := by
  have hp := find?_pred_true _ _ _ h
  simp only [Bool.and_eq_true, beq_iff_eq] at hp
  exact hp.2

theorem dbQueryByWabaId_active (db : List Business) (wid : String) (b : Business)
    (h : dbQueryByWabaId db wid = some b) : b.status = "active" := by
  have hp := find?_pred_true _ _ _ h
  simp only [Bool.and_eq_true, beq_iff_eq] at hp
  exact hp.2

theorem verifierFindBusiness_active (db : List Business) (tok : String) (b : Business)
    (h : verifierFindBusiness db tok = some b) : b.status = "active" := by
  have hp := find?_pred_true _ _ _ h
  simp only [Bool.and_eq_true, beq_iff_eq] at hp
  exact hp.1.2

/-- C5 counterexample: the webhook handler's own tenant lookup by WABA id
(`Business.findOne({ 'whatsappConfig.wabaId': entry.id })`) resolves a
suspended tenant instead of treating it as NotFound, so that tenant's
events are processed rather than dropped. -/
theorem handler_waba_lookup_ignores_status_cex :
    findBusinessByWabaId [suspendedBusiness] "W1" = some suspendedBusiness ∧
    suspendedBusiness.status = "suspended" ∧ suspendedBusiness.status ≠ "active" := by
  refine ⟨by decide, by decide, by decide⟩

/-- C5 amended: the cache-backed lookups (phone-number id, verify token,
WABA id through the cache) and the GET-verification lookup return only
tenants with status `active` — given the invariant, preserved by every
lookup, that cached snapshots were taken from that filtered query.  The
POST handler's direct WABA-id lookup, in contrast, applies no status
filter (see the counterexample). -/
theorem tenant_cache_resolution_only_active (cache : BusinessCacheState)
    (db : List Business) (key : String) (now : Nat) (b : Business)
    (hc : ∀ p ∈ cache, p.2.business.status = "active")
    (hres : (getByPhoneNumberId cache db key now).1 = some b
          ∨ (getByVerifyToken cache db key now).1 = some b
          ∨ (getByWabaId cache db key now).1 = some b
          ∨ verifierFindBusiness db key = some b) :
    b.status = "active" ∧
    (∀ p ∈ (getByPhoneNumberId cache db key now).2, p.2.business.status = "active") ∧
    (∀ p ∈ (getByVerifyToken cache db key now).2, p.2.business.status = "active") ∧
    (∀ p ∈ (getByWabaId cache db key now).2, p.2.business.status = "active") := by
  have hphone := businessCacheGet_active cache now ("phone:" ++ key)
    (dbQueryByPhoneNumberId db key) hc (dbQueryByPhoneNumberId_active db key)
  have htok := businessCacheGet_active cache now ("token:" ++ key)
    (dbQueryByVerifyToken db key) hc (dbQueryByVerifyToken_active db key)
  have hwaba := businessCacheGet_active cache now ("waba:" ++ key)
    (dbQueryByWabaId db key) hc (dbQueryByWabaId_active db key)
  refine ⟨?_, hphone.2, htok.2, hwaba.2⟩
  rcases hres with h | h | h | h
  · exact hphone.1 b h
  · exact htok.1 b h
  · exact hwaba.1 b h
  · exact verifierFindBusiness_active db key b h

/-- C5 witness: a concrete active tenant resolved by phone-number id. -/
theorem tenant_cache_resolution_only_active_witness :
    (getByPhoneNumberId [] [activeBusiness] "P1" 0).1 = some activeBusiness ∧
    activeBusiness.status = "active" :=
  ⟨by decide,
   (tenant_cache_resolution_only_active [] [activeBusiness] "P1" 0 activeBusiness
     (by simp) (Or.inl (by decide))).1⟩

/-! ## C9: the duplicate check is a separate read before the write -/

/-- C9 counterexample: starting from an empty conversation, the
check/check/write/write interleaving of two saves of the same message
reports two successes and stores the message twice — the concurrent
duplicate insert is not rejected. -/
theorem concurrent_duplicate_insert_cex :
    (concurrentDuplicateSave baseConv mdHi 7 2000 8 3000).1
      = (SaveResult.saved 7, SaveResult.saved 8) ∧
    countMessagesWithId (concurrentDuplicateSave baseConv mdHi 7 2000 8 3000).2 "m1" = 2 := by
  refine ⟨by decide, by decide⟩

/-- C9 amended: `saveMessageToConversation` issues its duplicate `findOne`
and its `updateOne` as two separate store operations (the update is
filtered only by `_id`), so whenever two concurrent saves of the same
external message id both read before either writes, both pass the
duplicate check and the message is stored twice; only sequential
execution rejects the second copy. -/
theorem concurrent_save_check_write_races (c : Conversation) (md : MessageData)
    (f1 t1 f2 t2 : Nat) (h : hasMessageWithId c md.whatsappMessageId = false) :
    (concurrentDuplicateSave c md f1 t1 f2 t2).1
      = (SaveResult.saved f1, SaveResult.saved f2) ∧
    countMessagesWithId (concurrentDuplicateSave c md f1 t1 f2 t2).2
      md.whatsappMessageId = 2 := by
  constructor
  · unfold concurrentDuplicateSave
    simp [h]
  · unfold concurrentDuplicateSave
    simp only [h, Bool.false_eq_true, if_false]
    rw [countMessagesWithId_saveApply, countMessagesWithId_saveApply,
      countMessagesWithId_eq_zero c _ h]

/-- C9 witness: the race on a fresh conversation, at different object ids
and times than the counterexample. -/
theorem concurrent_save_check_write_races_witness :
    (concurrentDuplicateSave { baseConv with _id := 4 } mdHi 11 5000 12 6000).1
      = (SaveResult.saved 11, SaveResult.saved 12) ∧
    countMessagesWithId (concurrentDuplicateSave { baseConv with _id := 4 } mdHi
      11 5000 12 6000).2 "m1" = 2 :=
  concurrent_save_check_write_races { baseConv with _id := 4 } mdHi 11 5000 12 6000
    (by decide)

/-! ## C8: HTTP statuses observable at the webhook boundary -/

theorem middleware_respond_codes (hmacHex : String → String → String)
    (cache : BusinessCacheState) (db : List Business) (now : Nat)
    (req : WebhookRequest) (s : Nat) (cache' : BusinessCacheState)
    (h : verifySignatureMiddleware hmacHex cache db now req
      = (MiddlewareOutcome.respond s, cache')) :
    s = 400 ∨ s = 401 ∨ s = 404 ∨ s = 500 := by
  unfold verifySignatureMiddleware at h
  repeat' split at h
  all_goals simp_all [Prod.mk.injEq]

/-- C8 counterexample: a signed POST whose phone-number id resolves to no
active business is answered with HTTP 404 by the signature middleware —
a status outside the claimed {200, 400, 403}. -/
theorem webhook_status_404_cex :
    postWebhookStatus (fun _ _ => "") [] [] 0
      { method := "POST", signatureHeader := some "sha256=x", rawBody := "r",
        body := bodyWithPid "P9" } = 404 ∧
    ¬ ((404 : Nat) = 200 ∨ (404 : Nat) = 400 ∨ (404 : Nat) = 403) := by
  refine ⟨by decide, by decide⟩

/-- C8 amended: the POST boundary answers 200 (handler), 400 (malformed
payload), 401 (signature mismatch), 404 (no active business) or 500
(timingSafeEqual length error), and the GET verification boundary answers
200, 400 or 403 — so 401, 404 and 500 are also observable, contrary to
the claim's {200, 400, 403} only. -/
theorem webhook_boundary_statuses (hmacHex : String → String → String)
    (cache : BusinessCacheState) (db : List Business) (now : Nat)
    (req : WebhookRequest) (q : VerifyQuery) :
    postWebhookStatus hmacHex cache db now req ∈ ([200, 400, 401, 404, 500] : List Nat) ∧
    (verifyWebhook db q).1 ∈ ([200, 400, 403] : List Nat) := by
  constructor
  · unfold postWebhookStatus
    cases hmw : verifySignatureMiddleware hmacHex cache db now req with
    | mk outcome cache' =>
      cases outcome with
      | next b => simp
      | respond s =>
        rcases middleware_respond_codes hmacHex cache db now req s cache' hmw with
          h | h | h | h <;> simp [h]
  · unfold verifyWebhook
    repeat' split
    all_goals simp

/-! ## C7: signature verification input and rejection -/

/-- C7 counterexample: the middleware's HMAC input is
`JSON.stringify(req.body)`, a re-serialization of the parsed body, not
the exact raw request bytes: for the raw body `{ "a": 1 }` (whose parse
is the one-field object), the hashed string drops the whitespace and so
differs from the raw body. -/
theorem signature_hmac_not_raw_body_cex :
    middlewareHmacMessage
      { method := "POST", signatureHeader := some "sha256=x",
        rawBody := "\x7b \"a\": 1 \x7d", body := Json.obj [("a", Json.num 1)] }
      = "\x7b\"a\":1\x7d" ∧
    ("\x7b \"a\": 1 \x7d" : String) ≠ "\x7b\"a\":1\x7d" := by
  refine ⟨by decide, by decide⟩

/-- C7 amended: on a POST with a signature header, a resolved business
with a configured secret, and a header that differs from
`sha256=` + HMAC(secret, JSON.stringify(body)) — the middleware hashes the
re-serialized parsed body, not the raw bytes — the request is rejected
(401, or 500 when `timingSafeEqual` throws on differing lengths) and the
handler is never invoked, so none of the request's events reach the
aggregate store. -/
theorem signature_mismatch_rejected (hmacHex : String → String → String)
    (cache : BusinessCacheState) (db : List Business) (now : Nat)
    (req : WebhookRequest) (sig pid : String) (business : Business) (secret : String)
    (hm : req.method = "POST")
    (hs : req.signatureHeader = some sig)
    (hp : extractPhoneNumberId req.body = some pid)
    (hp' : pid ≠ "")
    (hb : (getByPhoneNumberId cache db pid now).1 = some business)
    (hsec : business.whatsappConfig.appSecret = some secret)
    (hsec' : secret ≠ "")
    (hmis : sig ≠ "sha256=" ++ hmacHex secret (middlewareHmacMessage req)) :
    webhookRequestProcessed hmacHex cache db now req = false ∧
    ((verifySignatureMiddleware hmacHex cache db now req).1
        = MiddlewareOutcome.respond 401 ∨
     (verifySignatureMiddleware hmacHex cache db now req).1
        = MiddlewareOutcome.respond 500) := by
  have hmw : (verifySignatureMiddleware hmacHex cache db now req).1
      = MiddlewareOutcome.respond 401 ∨
      (verifySignatureMiddleware hmacHex cache db now req).1
      = MiddlewareOutcome.respond 500 := by
    unfold verifySignatureMiddleware
    simp only [hm, hs, hp, ne_eq, hp', if_false, eq_self_iff_true, not_true,
      Bool.false_eq_true, if_true]
    cases hg : getByPhoneNumberId cache db pid now with
    | mk o cache2 =>
      have ho : o = some business := by rw [hg] at hb; exact hb
      subst ho
      simp only [hsec, hsec', ne_eq, if_false]
      by_cases hlen : sig.utf8ByteSize
          = ("sha256=" ++ hmacHex secret (middlewareHmacMessage req)).utf8ByteSize
      · simp only [if_pos hlen, if_neg hmis]
        exact Or.inl trivial
      · simp only [if_neg hlen]
        exact Or.inr trivial
  refine ⟨?_, hmw⟩
  unfold webhookRequestProcessed
  cases hfull : verifySignatureMiddleware hmacHex cache db now req with
  | mk outcome cache' =>
    rcases hmw with h | h <;> rw [hfull] at h <;> simp only at h <;> rw [h]

/-- C7 witness: a concrete tampered signature on a well-formed request is
answered without invoking the handler. -/
theorem signature_mismatch_rejected_witness :
    webhookRequestProcessed (fun _ _ => "deadbeef") [] [activeBusiness] 0
      { method := "POST", signatureHeader := some "sha256=deadbeee", rawBody := "r",
        body := bodyWithPid "P1" } = false ∧
    ((verifySignatureMiddleware (fun _ _ => "deadbeef") [] [activeBusiness] 0
      { method := "POST", signatureHeader := some "sha256=deadbeee", rawBody := "r",
        body := bodyWithPid "P1" }).1 = MiddlewareOutcome.respond 401 ∨
     (verifySignatureMiddleware (fun _ _ => "deadbeef") [] [activeBusiness] 0
      { method := "POST", signatureHeader := some "sha256=deadbeee", rawBody := "r",
        body := bodyWithPid "P1" }).1 = MiddlewareOutcome.respond 500) :=
  signature_mismatch_rejected (fun _ _ => "deadbeef") [] [activeBusiness] 0
    { method := "POST", signatureHeader := some "sha256=deadbeee", rawBody := "r",
      body := bodyWithPid "P1" } "sha256=deadbeee" "P1" activeBusiness "sec"
    rfl rfl (by decide) (by decide) (by decide) rfl (by decide) (by decide)

/-! ## C2: reaction insert-or-replace semantics -/

theorem jsFindIndex_ge_neg1 {α} (l : List α) (p : α → Bool) : -1 ≤ jsFindIndex l p := by
  induction l with
  | nil => simp [jsFindIndex]
  | cons x xs ih =>
    simp only [jsFindIndex]
    by_cases hx : p x = true
    · simp [hx]
    · have hx' : p x = false := by simpa using hx
      simp only [hx', Bool.false_eq_true, if_false]
      by_cases hr : jsFindIndex xs p = -1
      · simp [hr]
      · simp only [hr, if_false]
        omega

theorem jsFindIndex_neg1_filter {α} (l : List α) (p : α → Bool)
    (h : jsFindIndex l p = -1) : l.filter p = [] := by
  induction l with
  | nil => simp
  | cons x xs ih =>
    simp only [jsFindIndex] at h
    by_cases hx : p x = true
    · simp [hx] at h
    · have hx' : p x = false := by simpa using hx
      simp only [hx', Bool.false_eq_true, if_false] at h
      by_cases hr : jsFindIndex xs p = -1
      · simp [List.filter_cons, hx', ih hr]
      · simp only [hr, if_false] at h
        have := jsFindIndex_ge_neg1 xs p
        omega

theorem jsFindIndex_nonneg_exists {α} (l : List α) (p : α → Bool)
    (h : 0 ≤ jsFindIndex l p) : ∃ r ∈ l, p r = true := by
  induction l with
  | nil => simp [jsFindIndex] at h
  | cons x xs ih =>
    by_cases hx : p x = true
    · exact ⟨x, List.mem_cons_self x xs, hx⟩
    · have hx' : p x = false := by simpa using hx
      simp only [jsFindIndex, hx', Bool.false_eq_true, if_false] at h
      by_cases hr : jsFindIndex xs p = -1
      · simp [hr] at h
      · simp only [hr, if_false] at h
        obtain ⟨r, hrm, hrp⟩ := ih (by omega)
        exact ⟨r, List.mem_cons_of_mem x hrm, hrp⟩

theorem samePair_timestamp (u e : String) (t : Nat) (r : Reaction) :
    samePair u e { r with timestamp := t } = samePair u e r := rfl

theorem filter_modifyAt_pair (l : List Reaction) (u e : String) (t : Nat)
    (hge : 0 ≤ jsFindIndex l (samePair u e))
    (huniq : l.countP (samePair u e) ≤ 1) :
    (modifyAt l (jsFindIndex l (samePair u e)).toNat
      (fun r => { r with timestamp := t })).filter (samePair u e)
      = [{ from_ := u, emoji := e, timestamp := t }] := by
  induction l with
  | nil => simp [jsFindIndex] at hge
  | cons x xs ih =>
    by_cases hx : samePair u e x = true
    · have hj : jsFindIndex (x :: xs) (samePair u e) = 0 := by simp [jsFindIndex, hx]
      rw [hj]
      have hcount : xs.countP (samePair u e) = 0 := by
        rw [List.countP_cons] at huniq
        simp only [hx, if_true] at huniq
        omega
      have hxs : xs.filter (samePair u e) = [] := by
        rw [List.filter_eq_nil_iff]
        intro a ha
        have := List.countP_eq_zero.1 hcount a ha
        simpa using this
      have hsp : samePair u e x = true := hx
      simp only [samePair, Bool.and_eq_true, beq_iff_eq] at hsp
      obtain ⟨hu, he⟩ := hsp
      show ((fun r => { r with timestamp := t }) x :: xs).filter (samePair u e) = _
      rw [List.filter_cons]
      rw [samePair_timestamp u e t x, hx]
      simp only [if_true]
      rw [hxs]
      cases x with
      | mk xf xe xt =>
        simp only at hu he
        subst hu
        subst he
        rfl
    · have hx' : samePair u e x = false := by simpa using hx
      have hne : jsFindIndex xs (samePair u e) ≠ -1 := by
        intro hcontra
        simp [jsFindIndex, hx', hcontra] at hge
      have hidx : jsFindIndex (x :: xs) (samePair u e)
          = jsFindIndex xs (samePair u e) + 1 := by
        simp [jsFindIndex, hx', hne]
      have hge' : 0 ≤ jsFindIndex xs (samePair u e) := by
        have := jsFindIndex_ge_neg1 xs (samePair u e)
        omega
      have htn : (jsFindIndex (x :: xs) (samePair u e)).toNat
          = (jsFindIndex xs (samePair u e)).toNat + 1 := by
        rw [hidx]
        omega
      rw [htn]
      show (x :: modifyAt xs (jsFindIndex xs (samePair u e)).toNat
        (fun r => { r with timestamp := t })).filter (samePair u e) = _
      rw [List.filter_cons, hx']
      simp only [Bool.false_eq_true, if_false]
      have huniq' : xs.countP (samePair u e) ≤ 1 := by
        rw [List.countP_cons, hx'] at huniq
        omega
      exact ih hge' huniq'

theorem find?_map_pres (g : Message → Message)
    (hg : ∀ x, (g x).whatsappMessageId = x.whatsappMessageId)
    (msgs : List Message) (wid : String) (m : Message)
    (h : msgs.find? (fun x => x.whatsappMessageId == wid) = some m) :
    (msgs.map g).find? (fun x => x.whatsappMessageId == wid) = some (g m) := by
  induction msgs with
  | nil => simp at h
  | cons x xs ih =>
    by_cases hx : (x.whatsappMessageId == wid) = true
    · rw [find?_cons_true _ x xs hx] at h
      obtain rfl := Option.some.inj h
      rw [List.map_cons]
      exact find?_cons_true _ (g x) _ (by rw [hg x]; exact hx)
    · have hx' : (x.whatsappMessageId == wid) = false := by simpa using hx
      rw [find?_cons_false _ x xs hx'] at h
      rw [List.map_cons, find?_cons_false _ (g x) _ (by rw [hg x]; exact hx')]
      exact ih h

theorem find?_reactions_map (msgs : List Message) (wid : String)
    (F : List Reaction → List Reaction) (m : Message)
    (h : msgs.find? (fun x => x.whatsappMessageId == wid) = some m) :
    (msgs.map (fun x => if x.whatsappMessageId == wid
        then { x with reactions := F x.reactions } else x)).find?
      (fun x => x.whatsappMessageId == wid)
      = some { m with reactions := F m.reactions } := by
  have hg : ∀ x : Message,
      ((if x.whatsappMessageId == wid then { x with reactions := F x.reactions }
        else x) : Message).whatsappMessageId = x.whatsappMessageId := by
    intro x
    by_cases hx : (x.whatsappMessageId == wid) = true <;> simp [hx]
  have hres := find?_map_pres _ hg msgs wid m h
  rw [hres, find?_pred_true _ _ _ h]
  simp

/-- C2 counterexample: a reactor who already reacted with one emoji and
then reacts with a different emoji ends up with two reaction entries on
the same message — the second reaction does not replace the first. -/
theorem addReaction_two_emojis_cex :
    ((addReactionToMessage
        { baseConv with messages :=
            [{ storedM1 "delivered" with reactions :=
                [{ from_ := "915551230000", emoji := "A", timestamp := 1 }] }] }
        "m1" { from_ := "915551230000", emoji := "B", timestamp := 2 } 9).2.messages.map
      (fun m => m.reactions.countP (fun r => r.from_ == "915551230000")))
      = [2] := by
  decide

/-- C2 amended: after one `addReactionToMessage` call on a located message
whose reactions all carry non-empty emojis and hold at most one entry for
this (reactor, emoji) pair: an empty emoji removes every reaction of the
reactor, and a non-empty emoji leaves exactly one entry for the
(reactor, emoji) pair, bearing the new timestamp — but uniqueness is per
(reactor, emoji) pair, not per reactor, so distinct emojis from the same
reactor accumulate (see the counterexample). -/
theorem addReaction_per_pair_semantics (c : Conversation) (wid u e : String) (t now : Nat)
    (m : Message)
    (hfound : c.messages.find? (fun x => x.whatsappMessageId == wid) = some m)
    (hclean : ∀ r ∈ m.reactions, r.emoji ≠ "")
    (huniq : m.reactions.countP (samePair u e) ≤ 1) :
    ∃ m', (addReactionToMessage c wid { from_ := u, emoji := e, timestamp := t }
        now).2.messages.find? (fun x => x.whatsappMessageId == wid) = some m' ∧
      (e = "" → m'.reactions.filter (fun r => r.from_ == u) = []) ∧
      (e ≠ "" → m'.reactions.filter (samePair u e)
        = [{ from_ := u, emoji := e, timestamp := t }]) := by
  have hsnd : (addReactionToMessage c wid { from_ := u, emoji := e, timestamp := t }
      now).2 = applyReactionUpdate c wid { from_ := u, emoji := e, timestamp := t } now
        (jsFindIndex m.reactions (samePair u e)) := by
    unfold addReactionToMessage
    simp only [hfound]
    split <;> rfl
  rw [hsnd]
  unfold applyReactionUpdate
  by_cases hidx : 0 ≤ jsFindIndex m.reactions (samePair u e)
  · have hne : e ≠ "" := by
      obtain ⟨r, hrm, hrp⟩ := jsFindIndex_nonneg_exists m.reactions (samePair u e) hidx
      simp only [samePair, Bool.and_eq_true, beq_iff_eq] at hrp
      exact hrp.2 ▸ hclean r hrm
    simp only [hidx, if_true]
    refine ⟨_, find?_reactions_map c.messages wid
      (fun rs => modifyAt rs (jsFindIndex m.reactions (samePair u e)).toNat
        (fun r => { r with timestamp := t })) m hfound, ?_, ?_⟩
    · intro he
      exact absurd he hne
    · intro _
      exact filter_modifyAt_pair m.reactions u e t hidx huniq
  · by_cases he : e = ""
    · subst he
      simp only [hidx, if_false, eq_self_iff_true, if_true]
      refine ⟨_, find?_reactions_map c.messages wid
        (fun rs => rs.filter (fun r => !(r.from_ == u))) m hfound, ?_, ?_⟩
      · intro _
        rw [List.filter_filter]
        apply List.filter_eq_nil_iff.2
        intro r _
        simp
      · intro hne
        exact absurd rfl hne
    · simp only [hidx, if_false, he]
      refine ⟨_, find?_reactions_map c.messages wid
        (fun rs => rs ++ [{ from_ := u, emoji := e, timestamp := t }]) m hfound, ?_, ?_⟩
      · intro h0
        exact h0.elim
      · intro _
        have hneg : jsFindIndex m.reactions (samePair u e) = -1 := by
          have := jsFindIndex_ge_neg1 m.reactions (samePair u e)
          omega
        rw [List.filter_append, jsFindIndex_neg1_filter m.reactions (samePair u e) hneg]
        simp [samePair]

/-- C2 witness: an empty-emoji reaction removes the reactor's entry, and a
repeated same-emoji reaction keeps a single entry with the new timestamp. -/
theorem addReaction_per_pair_semantics_witness :
    ∃ m', (addReactionToMessage
        { baseConv with messages :=
            [{ storedM1 "delivered" with reactions :=
                [{ from_ := "915551230000", emoji := "A", timestamp := 1 }] }] }
        "m1" { from_ := "915551230000", emoji := "", timestamp := 2 }
        9).2.messages.find? (fun x => x.whatsappMessageId == "m1") = some m' ∧
      m'.reactions.filter (fun r => r.from_ == "915551230000") = [] := by
  obtain ⟨m', hm', hempty, _⟩ := addReaction_per_pair_semantics
    { baseConv with messages :=
        [{ storedM1 "delivered" with reactions :=
            [{ from_ := "915551230000", emoji := "A", timestamp := 1 }] }] }
    "m1" "915551230000" "" 2 9
    { storedM1 "delivered" with reactions :=
        [{ from_ := "915551230000", emoji := "A", timestamp := 1 }] }
    (by decide) (by decide) (by decide)
  exact ⟨m', hm', hempty rfl⟩

/-! ## C6: contact profile diffing -/

theorem applyProfileUpdateConv_fst (c : Conversation) (pd : ProfileData) :
    (applyProfileUpdateConv c pd).1 = profileChanges c.contact pd ∨
    (applyProfileUpdateConv c pd).1 = [] := by
  unfold applyProfileUpdateConv
  by_cases hch : profileChanges c.contact pd = []
  · simp [hch]
  · by_cases hcc : profileSetDoc c pd = c
    · simp [hch, hcc]
    · simp [hch, hcc]

theorem applyProfileUpdateConv_snd (c : Conversation) (pd : ProfileData) :
    (applyProfileUpdateConv c pd).2
      = if profileChanges c.contact pd = [] then c else profileSetDoc c pd := by
  unfold applyProfileUpdateConv
  by_cases hch : profileChanges c.contact pd = []
  · simp [hch]
  · by_cases hcc : profileSetDoc c pd = c
    · simp [hch, hcc]
    · simp [hch, hcc]

theorem takeLast_length_le {α} (n : Nat) (l : List α) : (takeLast n l).length ≤ n := by
  simp only [takeLast, List.length_drop]
  omega

/-- C6 counterexample: a stored `about` of "hello" with an incoming
`about` of null differs, yet `updateContactProfile` reports an empty
change set and leaves the stored value in place — the returned set is not
the set of differing fields, and the differing field is not written. -/
theorem profile_about_clear_ignored_cex :
    ({ baseContact with about := some "hello" } : Contact).about
      ≠ ({ phoneNumber := "915551230000", name := "A", profilePhoto := none,
           about := none, updatedAt := 9 } : ProfileData).about ∧
    (updateContactProfile
       [{ baseConv with contact := { baseContact with about := some "hello" } }]
       { phoneNumber := "915551230000", name := "A", profilePhoto := none,
         about := none, updatedAt := 9 }).1
      = ProfileUpdateResult.success 1 [] ∧
    (updateContactProfile
       [{ baseConv with contact := { baseContact with about := some "hello" } }]
       { phoneNumber := "915551230000", name := "A", profilePhoto := none,
         about := none, updatedAt := 9 }).2
      = [{ baseConv with contact := { baseContact with about := some "hello" } }] := by
  refine ⟨by decide, by decide, by decide⟩

/-- C6 amended: `updateContactProfile` returns the diff it computed (or
the empty set when nothing is modified) — but the diff tracks `about`
only when the incoming value is non-null, so clearing `about` is neither
detected, written nor reported; an empty diff is a valid no-op; a
non-empty diff writes `contact.name` and `contact.profilePhoto`
wholesale (value-identical for unchanged fields) and appends the changes
to the history, bounded to the last 20 entries. -/
theorem updateContactProfile_diff_semantics (c : Conversation) (pd : ProfileData) :
    ((applyProfileUpdateConv c pd).1 = profileChanges c.contact pd ∨
     (applyProfileUpdateConv c pd).1 = []) ∧
    (pd.about = none → (applyProfileUpdateConv c pd).2.contact.about = c.contact.about) ∧
    (profileChanges c.contact pd = [] → applyProfileUpdateConv c pd = ([], c)) ∧
    (profileChanges c.contact pd ≠ [] →
      (applyProfileUpdateConv c pd).2.contact.name = pd.name ∧
      (applyProfileUpdateConv c pd).2.contact.profilePhoto = pd.profilePhoto ∧
      (applyProfileUpdateConv c pd).2.contact.profileHistory
        = takeLast 20 (c.contact.profileHistory ++ profileChanges c.contact pd)) ∧
    (applyProfileUpdateConv c pd).2.contact.profileHistory.length
      ≤ max c.contact.profileHistory.length 20 := by
  refine ⟨applyProfileUpdateConv_fst c pd, ?_, ?_, ?_, ?_⟩
  · intro hnone
    rw [applyProfileUpdateConv_snd]
    by_cases hch : profileChanges c.contact pd = []
    · rw [if_pos hch]
    · rw [if_neg hch]
      show (if pd.about.isSome then pd.about else c.contact.about) = c.contact.about
      rw [hnone]
      rfl
  · intro hch
    unfold applyProfileUpdateConv
    rw [if_pos hch]
  · intro hch
    rw [applyProfileUpdateConv_snd, if_neg hch]
    exact ⟨rfl, rfl, rfl⟩
  · rw [applyProfileUpdateConv_snd]
    by_cases hch : profileChanges c.contact pd = []
    · rw [if_pos hch]
      exact Nat.le_max_left _ _
    · rw [if_neg hch]
      exact Nat.le_trans (takeLast_length_le 20 _) (Nat.le_max_right _ _)

/-- C6 witness: a name-only update with a null incoming about leaves the
stored about untouched. -/
theorem updateContactProfile_diff_semantics_witness :
    (applyProfileUpdateConv
      { baseConv with contact := { baseContact with about := some "hello" } }
      { phoneNumber := "915551230000", name := "B", profilePhoto := none,
        about := none, updatedAt := 9 }).2.contact.about
      = ({ baseConv with contact := { baseContact with about := some "hello" }
          } : Conversation).contact.about :=
  (updateContactProfile_diff_semantics
    { baseConv with contact := { baseContact with about := some "hello" } }
    { phoneNumber := "915551230000", name := "B", profilePhoto := none,
      about := none, updatedAt := 9 }).2.1 rfl

end WhatsAppWebhook
